import Mathlib

/-!
Shallow embedding of the amazon-copilot hybrid-retrieval and
conversational preference-collection engine, translated from the Python
sources under `src/amazon_copilot/`.  External collaborators (OpenAI
structured-completion calls, fastembed embedding models, the Qdrant
vector store) are modelled as oracle parameters gathered in environment
structures; everything else is transliterated from the code.

Floats are modelled as `ℚ` (only equality/ordering matter), Python ints
as `Int`, Python dicts as insertion-ordered association lists.
-/

namespace AmazonCopilot

/-! ## Data model (`schemas.py`) -/

/-- Model of `Product` from `amazon_copilot/schemas.py`. -/
structure Product where
  id : Int
  name : String
  main_category : Option String
  sub_category : Option String
  image : String
  link : Option String
  ratings : Option ℚ
  no_of_ratings : Option Int
  discount_price : Option ℚ
  actual_price : Option ℚ
deriving DecidableEq, Repr

/-- Model of `ProductQuery` from `amazon_copilot/schemas.py` (the preference object
used by the conversation graph). -/
structure ProductQuery where
  query : Option String := none
  main_category : Option String := none
  price_min : Option ℚ := none
  price_max : Option ℚ := none
deriving DecidableEq, Repr

/-- Model of `Message` from `amazon_copilot/schemas.py`. -/
structure Message where
  role : String
  content : String
deriving DecidableEq, Repr

/-- Model of `AgentResponse` from `amazon_copilot/schemas.py`. -/
structure AgentResponse where
  message : String
  preferences : ProductQuery
deriving DecidableEq, Repr

/-- Model of `QuestionsResponse` from `amazon_copilot/schemas.py`. -/
structure QuestionsResponse where
  message : String
  restart : Bool := false
deriving DecidableEq, Repr

/-- Model of `PresentationResponse` from `amazon_copilot/schemas.py`. -/
structure PresentationResponse where
  message : String
  products : List Product
deriving DecidableEq, Repr

/-! ## Chatbot configuration (`services/ai/chatbot/config.py`) -/

def LAST_N_MESSAGES : Nat := 10

def RECURSION_LIMIT : Nat := 10

def MIN_FIELDS_FOR_SEARCH : Nat := 3

def REQUIRED_FIELD_FOR_SEARCH : String := "query"

/-! ## Conversation graph (`services/ai/chatbot/graph.py`) -/

namespace Graph

/-- Model of `GraphState` from `graph.py`. -/
structure GraphState where
  history : List Message
  preferences : ProductQuery
  products : List Product
  restart_requested : Bool
deriving DecidableEq, Repr

/-- The hardcoded product returned by the mock `search_products` in
`graph.py` (lines 56-69). -/
def mockProduct : Product :=
  { id := 1
    name := "Product 1"
    main_category := some "Category 1"
    sub_category := some "Subcategory 1"
    image := "https://via.placeholder.com/150"
    link := some "https://example.com/product1"
    ratings := some (4.5 : ℚ)
    no_of_ratings := some 100
    discount_price := some 100
    actual_price := some 120 }

/-- Transliteration of `search_products` from `graph.py` (lines 54-69): a mock that ignores
the preferences and returns a hardcoded one-product list. -/
def search_products (_preferences : ProductQuery) : List Product :=
  [mockProduct]

/-- Models Python `getattr(preferences, field) is not None` for the four
`ProductQuery` fields (`graph.py` line 84 uses it with
`REQUIRED_FIELD_FOR_SEARCH`). Unknown field names never occur at the one
call site (`REQUIRED_FIELD_FOR_SEARCH = "query"`); they are mapped to
`false`. -/
def getattrIsSome (preferences : ProductQuery) (field : String) : Bool :=
  if field = "query" then preferences.query.isSome
  else if field = "main_category" then preferences.main_category.isSome
  else if field = "price_min" then preferences.price_min.isSome
  else if field = "price_max" then preferences.price_max.isSome
  else false

/-- Transliteration of `has_sufficient_preferences` from `graph.py` (lines 72-85). -/
def has_sufficient_preferences (preferences : ProductQuery) : Bool :=
  let filled_fields :=
    [preferences.query.isSome, preferences.main_category.isSome,
      preferences.price_min.isSome, preferences.price_max.isSome].count true
  decide (MIN_FIELDS_FOR_SEARCH ≤ filled_fields)
    && getattrIsSome preferences REQUIRED_FIELD_FOR_SEARCH

/-- The field-by-field preference merge performed inline by
`collect_preferences_node` (`graph.py` lines 153-161): every non-null
field of the new object overwrites the old one, null fields keep the old
value. -/
def mergePreferences (current new : ProductQuery) : ProductQuery :=
  { query := match new.query with
      | some v => some v
      | none => current.query
    main_category := match new.main_category with
      | some v => some v
      | none => current.main_category
    price_min := match new.price_min with
      | some v => some v
      | none => current.price_min
    price_max := match new.price_max with
      | some v => some v
      | none => current.price_max }

/-- Oracle for the three `call_openai` call sites; each provider call may
return a parsed structured object or `None` (`call_openai` returns `None`
both on API failure and on parse failure). The response may depend on the
full state the prompt is built from. -/
structure ChatEnv where
  collectResp : GraphState → Option AgentResponse
  presentResp : GraphState → Option PresentationResponse
  questionsResp : GraphState → Option QuestionsResponse

/-- The canned apology appended whenever a provider call fails. -/
def apologyMessage : String := "I'm sorry, I couldn't find any products."

/-- Transliteration of `collect_preferences_node` from `graph.py` (lines 126-176). -/
def collect_preferences_node (env : ChatEnv) (state : GraphState) : GraphState :=
  match env.collectResp state with
  | some agent_response =>
      let merged := mergePreferences state.preferences agent_response.preferences
      let state' := { state with preferences := merged }
      if has_sufficient_preferences merged then
        state'
      else
        { state' with history :=
            state'.history ++ [⟨"assistant", agent_response.message⟩] }
  | none =>
      { state with history := state.history ++ [⟨"assistant", apologyMessage⟩] }

/-- Transliteration of `search_products_node` from `graph.py` (lines 179-184). -/
def search_products_node (state : GraphState) : GraphState :=
  { state with products := search_products state.preferences }

/-- Transliteration of `present_products_node` from `graph.py` (lines 187-223). -/
def present_products_node (env : ChatEnv) (state : GraphState) : GraphState :=
  match env.presentResp state with
  | some presentation_response =>
      { state with history :=
          state.history ++ [⟨"assistant", presentation_response.message⟩] }
  | none =>
      { state with history := state.history ++ [⟨"assistant", apologyMessage⟩] }

/-- Transliteration of `answer_questions_node` from `graph.py` (lines 226-286). -/
def answer_questions_node (env : ChatEnv) (state : GraphState) : GraphState :=
  match env.questionsResp state with
  | some questions_response =>
      if questions_response.restart then
        { state with
            restart_requested := true
            products := []
            preferences := {} }
      else
        { state with history :=
            state.history ++ [⟨"assistant", questions_response.message⟩] }
  | none =>
      { state with history := state.history ++ [⟨"assistant", apologyMessage⟩] }

/-- Return type of `route_after_collection` (`graph.py` lines 289-299). -/
inductive RouteAfterCollection where
  | search_products
  | collect_preferences
deriving DecidableEq, Repr

/-- Transliteration of `route_after_collection` from `graph.py` (lines 289-299). -/
def route_after_collection (state : GraphState) : RouteAfterCollection :=
  if has_sufficient_preferences state.preferences then
    .search_products
  else
    .collect_preferences

/-- Return type of `route_after_questions` (`graph.py` lines 302-311). -/
inductive RouteAfterQuestions where
  | collect_preferences
  | answer_questions
deriving DecidableEq, Repr

/-- Transliteration of `route_after_questions` from `graph.py` (lines 302-311). -/
def route_after_questions (state : GraphState) : RouteAfterQuestions :=
  if state.restart_requested then
    .collect_preferences
  else
    .answer_questions

/-- One turn entered at `collect_preferences` (the workflow wired in
`run_conversation`, `graph.py` lines 356-368): a conditional edge routes
to `search_products` on sufficiency (else the turn ends), then an
unconditional edge to `present_products`, then END. -/
def runCollectionFlow (env : ChatEnv) (state : GraphState) : GraphState :=
  let s1 := collect_preferences_node env state
  match route_after_collection s1 with
  | .search_products => present_products_node env (search_products_node s1)
  | .collect_preferences => s1

/-- One turn entered at `answer_questions` (the workflow wired in
`run_conversation`, `graph.py` lines 369-390): a conditional edge routes
to `collect_preferences` on restart (else the turn ends), after which the
collection flow of the same turn applies. -/
def runQuestionsFlow (env : ChatEnv) (state : GraphState) : GraphState :=
  let s1 := answer_questions_node env state
  match route_after_questions s1 with
  | .collect_preferences => runCollectionFlow env s1
  | .answer_questions => s1

end Graph

/-! ## Retrieval engine (`qdrant_client.py`) -/

namespace Qdrant

/-- Dense embedding vector (contents are opaque to the core). -/
abbrev DenseVec := List ℚ

/-- Sparse embedding vector as produced by `as_object()`:
an indices/values pair. -/
structure SparseVec where
  indices : List Nat
  values : List ℚ
deriving DecidableEq, Repr

/-- Filter condition grammar used by the engine: `models.FieldCondition`
with a `models.MatchText` match (the only condition kind
`search_similar_products` builds). -/
inductive Condition where
  | matchText (key : String) (text : String)
deriving DecidableEq, Repr

/-- Model of `models.Filter(must=...)`. -/
structure Filter where
  must : List Condition
deriving DecidableEq, Repr

/-- Payload of a `models.Prefetch` branch: a dense query vector or a
sparse query vector. -/
inductive PrefetchQuery where
  | dense (v : DenseVec)
  | sparse (v : SparseVec)
deriving DecidableEq, Repr

/-- Model of `models.Prefetch`; `using_field` models the `using=` keyword
naming the vector field searched by the branch. -/
structure Prefetch where
  query : PrefetchQuery
  using_field : String
  limit : Nat
  filter : Option Filter
deriving DecidableEq, Repr

/-- One scored point of the store's fused-query response: an id and an
optional payload (the engine skips payload-less points). The payload of a
product point is the product's full field dump. -/
structure ScoredPoint where
  id : Int
  payload : Option Product
deriving DecidableEq, Repr

/-- The fused query issued by `search_similar_products` to
`client.query_points` (`qdrant_client.py` lines 290-299). -/
structure QueryRequest where
  collection_name : String
  prefetch : List Prefetch
  fusion : String
  limit : Nat
  offset : Nat
  query_filter : Option Filter
deriving DecidableEq, Repr

/-- Oracle for the external collaborators of
`search_similar_products`: the two query embedders (a Python iterator of
vectors, `[]` meaning the iterator yields nothing — the `StopIteration`
case) and the store's `query_points` call (`none` models a response whose
`points` attribute is `None`). -/
structure SearchEnv where
  dense_model_field_name : String
  sparse_model_field_name : String
  queryEmbedDense : String → List DenseVec
  queryEmbedSparse : String → List SparseVec
  queryPoints : QueryRequest → Option (List ScoredPoint)

/-- Error raised when the dense query embedder yields nothing
(`qdrant_client.py` lines 257-261). Python raises
`ValueError("Dense embedding generation failed: ", "no embeddings returned
for the query.")`; the two tuple components are modelled concatenated. -/
def denseEmbeddingErrMsg : String :=
  "Dense embedding generation failed: no embeddings returned for the query."

/-- Error raised when the sparse query embedder yields nothing
(`qdrant_client.py` lines 266-270). -/
def sparseEmbeddingErrMsg : String :=
  "Sparse embedding generation failed: no embeddings returned for the query."

/-- Category filter conditions built by `search_similar_products`
(`qdrant_client.py` lines 231-246). Python truthiness: `if main_category:`
treats both `None` and the empty string as absent. -/
def categoryConditions (main_category sub_category : Option String) :
    List Condition :=
  (match main_category with
    | some mc => if mc = "" then [] else [Condition.matchText "main_category" mc]
    | none => []) ++
  (match sub_category with
    | some sc => if sc = "" then [] else [Condition.matchText "sub_category" sc]
    | none => [])

/-- The optional query filter (`qdrant_client.py` lines 248-251):
`None` when the condition list is empty. -/
def buildQueryFilter (main_category sub_category : Option String) :
    Option Filter :=
  let filters := categoryConditions main_category sub_category
  if filters = [] then none else some ⟨filters⟩

/-- Mapping of a response payload back into a `Product`
(`qdrant_client.py` lines 308-321): every field is taken from the payload
except `id`, which is taken from the point id. -/
def payloadToProduct (pid : Int) (payload : Product) : Product :=
  { payload with id := pid }

/-- The two-branch prefetch plus fused request built by
`search_similar_products` (`qdrant_client.py` lines 271-299). -/
def searchRequest (env : SearchEnv) (collection_name : String)
    (query_filter : Option Filter) (limit offset prefetch_limit : Nat)
    (dense_vectors : DenseVec) (sparse_vectors : SparseVec) : QueryRequest :=
  { collection_name := collection_name
    prefetch :=
      [{ query := .dense dense_vectors
         using_field := env.dense_model_field_name
         limit := prefetch_limit
         filter := query_filter },
       { query := .sparse sparse_vectors
         using_field := env.sparse_model_field_name
         limit := prefetch_limit
         filter := query_filter }]
    fusion := "RRF"
    limit := limit
    offset := offset
    query_filter := query_filter }

/-- Transliteration of `QdrantClient.search_similar_products`
(`qdrant_client.py` lines 198-322). Note the Python signature has no
price parameters of any kind; the only filters are the category
text-match conditions. A raised `ValueError` is modelled as
`Except.error`. -/
def search_similar_products (env : SearchEnv) (query : String)
    (collection_name : String)
    (main_category : Option String := none)
    (sub_category : Option String := none)
    (limit : Nat := 10) (offset : Nat := 0) (prefetch_limit : Nat := 20) :
    Except String (List Product) :=
  let query_filter := buildQueryFilter main_category sub_category
  match env.queryEmbedDense query with
  | [] => .error denseEmbeddingErrMsg
  | dense_vectors :: _ =>
    match env.queryEmbedSparse query with
    | [] => .error sparseEmbeddingErrMsg
    | sparse_vectors :: _ =>
      match env.queryPoints
          (searchRequest env collection_name query_filter limit offset
            prefetch_limit dense_vectors sparse_vectors) with
      | none => .ok []
      | some points =>
          .ok (points.filterMap
            (fun point => point.payload.map (payloadToProduct point.id)))

/-! ### Ingestion (`QdrantClient.add_products`, `qdrant_client.py` lines 93-196) -/

/-- A stored point: stable product id, the two vectors (keyed in Python by
the dense/sparse model field names), and the full product payload. -/
structure Point where
  id : Int
  dense : DenseVec
  sparse : SparseVec
  payload : Product
deriving DecidableEq, Repr

/-- The collection's contents, in storage order. -/
abbrev Store := List Point

/-- Point retrieval by id, modelling `client.retrieve(ids=[pid])`:
`none` is the empty response. -/
def Store.lookupPoint (store : Store) (pid : Int) : Option Point :=
  store.find? (fun pt => pt.id == pid)

/-- Upsert of one point: overwrite the (unique) point carrying the same
id when present, append otherwise. -/
def upsertPoint (store : Store) (pt : Point) : Store :=
  match store with
  | [] => [pt]
  | q :: rest => if q.id = pt.id then pt :: rest else q :: upsertPoint rest pt

/-- The `failed` result of `add_products`: a Python dict mapping product
ids to failure reasons, modelled as an insertion-ordered association
list. -/
abbrev FailedMap := List (Int × String)

/-- Dict lookup (first, and only, binding of a key). -/
def dictLookup (d : FailedMap) (k : Int) : Option String :=
  match d with
  | [] => none
  | (k', v) :: rest => if k' = k then some v else dictLookup rest k

/-- Dict assignment `d[k] = v`: replace the binding of `k` in place when
present (dict keys are unique, so the first binding is the binding), or
append a new one at the end. -/
def dictInsert (d : FailedMap) (k : Int) (v : String) : FailedMap :=
  match d with
  | [] => [(k, v)]
  | (k', w) :: rest => if k' = k then (k, v) :: rest else (k', w) :: dictInsert rest k v

/-- Failure reason recorded by the duplicate check
(`qdrant_client.py` lines 129-131). -/
def duplicateMsg (pid : Int) : String :=
  "Product with ID " ++ toString pid ++ " already exists"

/-- Failure reason for a batch whose embedding call raised
(`qdrant_client.py` line 152). -/
def embeddingFailedMsg (cause : String) : String :=
  "Embedding generation failed: " ++ cause

/-- Failure reason for a batch whose upsert raised
(`qdrant_client.py` line 191). -/
def upsertFailedMsg (cause : String) : String :=
  "Upsert operation failed: " ++ cause

/-- Failure reason for a batch whose `zip(..., strict=True)` raised
(`qdrant_client.py` line 180); the `str(e)` cause of the `ValueError`
raised by `zip` is modelled as a fixed text. -/
def pointConstructionMsg : String :=
  "Point construction failed: zip argument lengths differ"

/-- Fuel-driven worker for `chunks`; the fuel (instantiated with the
list length, an upper bound on the number of batches) only makes the
recursion structural. -/
def chunksFuel {α : Type} (batch_size : Nat) : Nat → List α → List (List α)
  | _, [] => []
  | 0, _ :: _ => []
  | fuel + 1, x :: xs =>
      ((x :: xs).take batch_size) :: chunksFuel batch_size fuel ((x :: xs).drop batch_size)

/-- The Python `range(0, len(xs), batch_size)` slicing of the product
list into batches (`qdrant_client.py` lines 143-144). A zero batch size
(for which Python's `range` raises `ValueError`) yields no batches. -/
def chunks {α : Type} (batch_size : Nat) (xs : List α) : List (List α) :=
  if batch_size = 0 then [] else chunksFuel batch_size xs.length xs

/-- Oracle for the external collaborators of `add_products`: the two
batch embedders (`Except.error` models a raised exception, with its
`str(e)` cause) and the upsert call (`some cause` models a raised
exception). The upsert outcome is a function of the upserted points, the
request content. -/
structure AddEnv where
  embedDense : List String → Except String (List DenseVec)
  embedSparse : List String → Except String (List SparseVec)
  upsertErr : List Point → Option String

/-- Point construction for one batch (`qdrant_client.py` lines 157-177):
one point per product with a stable id, the batch's vectors, and the full
product payload. (Callable only when the vector lists match the batch in
length, the `strict=True` zip condition.) -/
def mkPoints (batch : List Product) (dense_vecs : List DenseVec)
    (sparse_vecs : List SparseVec) : List Point :=
  (batch.zip (dense_vecs.zip sparse_vecs)).map
    (fun x => { id := x.1.id, dense := x.2.1, sparse := x.2.2, payload := x.1 })

/-- Marks a whole batch failed with one reason. -/
def markBatchFailed (failed : FailedMap) (batch : List Product)
    (msg : String) : FailedMap :=
  batch.foldl (fun d p => dictInsert d p.id msg) failed

/-- Accumulated state of one `add_products` call: the two reported
results plus the collection contents. -/
structure AddState where
  successful : List Product
  failed : FailedMap
  store : Store
deriving Repr

/-- One iteration of the batch loop of `add_products`
(`qdrant_client.py` lines 143-194): embed the batch's names (dense then
sparse; a raise fails the whole batch and continues), build the points
(the `strict=True` zip fails the whole batch on a length mismatch), then
upsert (a raise fails the whole batch, success reports every product of
the batch successful). -/
def processBatch (env : AddEnv) (st : AddState) (batch : List Product) :
    AddState :=
  match env.embedDense (batch.map fun p => p.name) with
  | .error e => { st with failed := markBatchFailed st.failed batch (embeddingFailedMsg e) }
  | .ok dense_vecs =>
    match env.embedSparse (batch.map fun p => p.name) with
    | .error e => { st with failed := markBatchFailed st.failed batch (embeddingFailedMsg e) }
    | .ok sparse_vecs =>
      if dense_vecs.length = batch.length ∧ sparse_vecs.length = batch.length then
        let points := mkPoints batch dense_vecs sparse_vecs
        match env.upsertErr points with
        | some e => { st with failed := markBatchFailed st.failed batch (upsertFailedMsg e) }
        | none =>
            { st with
                successful := st.successful ++ batch
                store := points.foldl upsertPoint st.store }
      else
        { st with failed := markBatchFailed st.failed batch pointConstructionMsg }

/-- The reporting outcome of one batch, determined by the batch content
alone: `none` for success, `some reason` for a whole-batch failure. -/
def batchOutcome (env : AddEnv) (batch : List Product) : Option String :=
  match env.embedDense (batch.map fun p => p.name) with
  | .error e => some (embeddingFailedMsg e)
  | .ok dense_vecs =>
    match env.embedSparse (batch.map fun p => p.name) with
    | .error e => some (embeddingFailedMsg e)
    | .ok sparse_vecs =>
      if dense_vecs.length = batch.length ∧ sparse_vecs.length = batch.length then
        match env.upsertErr (mkPoints batch dense_vecs sparse_vecs) with
        | some e => some (upsertFailedMsg e)
        | none => none
      else
        some pointConstructionMsg

/-- One step of the duplicate pre-check loop: probe the store for the
product's id and mark it failed when present. -/
def duplicateStep (store : Store) (d : FailedMap) (p : Product) : FailedMap :=
  if (store.lookupPoint p.id).isSome then dictInsert d p.id (duplicateMsg p.id)
  else d

/-- The duplicate pre-check of `add_products` (`qdrant_client.py` lines
117-137): every input product whose id is already stored is marked failed.
The existence probe consults the current collection contents (a missing
collection — the probe's swallowed-exception case — is the empty store). -/
def duplicateCheck (store : Store) (products : List Product) : FailedMap :=
  products.foldl (duplicateStep store) []

/-- Transliteration of `QdrantClient.add_products`
(`qdrant_client.py` lines 93-196). Returns the successful list, the
failed map, and the resulting collection contents. (The Python early
return for an empty `products_to_add`, and the `prevent_duplicates and
products` guard, produce the same results as the batch loop running on no
batches.) -/
def add_products (env : AddEnv) (store : Store) (products : List Product)
    (batch_size : Nat := 100) (prevent_duplicates : Bool := true) :
    AddState :=
  let pre :=
    if prevent_duplicates then
      let failed0 := duplicateCheck store products
      (failed0, products.filter (fun p => (dictLookup failed0 p.id).isNone))
    else
      (([] : FailedMap), products)
  (chunks batch_size pre.2).foldl (processBatch env)
    { successful := [], failed := pre.1, store := store }

end Qdrant

/-! ## Recommendation engine (`services/ai/recommendation/main.py`) -/

namespace Rec

/-- The one uncaught failure mode of `recommend_products`: when the
OpenAI call raises `OpenAIError`, the `except` branch assigns only
`query = cart_summary` and never `ideas`, so the subsequent
`for item in ideas` loop raises `UnboundLocalError`. -/
inductive RecFailure where
  | unboundLocalIdeas
deriving DecidableEq, Repr

/-- Oracle for the external collaborators of `recommend_products`.
`chat summary` models the OpenAI call plus the response-parsing block
(`main.py` lines 46-73): `Except.error` is a raised `OpenAIError`,
`Except.ok ideas` is the cleaned idea list (possibly empty when the
output was unusable). `search q limit` models the
`qdrant_client.list_products(query=q, ...)` calls (`main.py` lines 81-86
and 94-96); `Except.error` is any raised exception — note the real
`QdrantClient.list_products` accepts no `query` or `prefetch_limit`
keyword, so at runtime these calls raise `TypeError`, one instance of the
error case. -/
structure RecEnv where
  chat : String → Except Unit (List String)
  search : String → Int → Except Unit (List Product)

/-- The first retrieval loop (`main.py` lines 78-89): one single-result
search per idea, extending the hit list; a raise anywhere makes the whole
call return `[]` (propagated here as `Except.error`). -/
def collectHits (env : RecEnv) : List String → Except Unit (List Product)
  | [] => .ok []
  | item :: rest =>
    match env.search item 1 with
    | .error e => .error e
    | .ok hits =>
      match collectHits env rest with
      | .error e => .error e
      | .ok more => .ok (hits ++ more)

/-- Transliteration of `recommend_products`
(`services/ai/recommendation/main.py` lines 11-105). -/
def recommend_products (env : RecEnv) (shopping_cart : Option (List Product))
    (limit : Int := 10) : Except RecFailure (List Product) :=
  match shopping_cart with
  | none => .ok []
  | some cart =>
    if limit ≤ 0 then .ok []
    else
      let cart_summary := String.intercalate "; " (cart.map (·.name))
      match env.chat cart_summary with
      | .error _ =>
          -- `except OpenAIError: query = cart_summary` leaves `ideas`
          -- unbound; `for item in ideas` then raises UnboundLocalError.
          .error .unboundLocalIdeas
      | .ok parsed =>
          let ideas := if parsed.isEmpty then [cart_summary] else parsed
          let query := String.intercalate "\n" ideas
          match collectHits env ideas with
          | .error _ => .ok []
          | .ok results =>
              let withMore :=
                if results.length < limit.toNat then
                  match env.search query limit with
                  | .error _ => none
                  | .ok more_items => some (results ++ more_items)
                else some results
              match withMore with
              | none => .ok []
              | some results =>
                  let cart_ids := cart.map (·.id)
                  let unique_results :=
                    results.filter (fun p => decide (p.id ∉ cart_ids))
                  .ok (unique_results.take limit.toNat)

end Rec

/-! ## Product service layer (`services/products.py`) -/

namespace Services

/-- Transliteration of `services/products.py::search_products`
(lines 111-152): a direct delegation to
`QdrantClient.search_similar_products`. Its signature, too, has no price
parameters, although the API router and the CLI pass `price_min` and
`price_max` keyword arguments to it (a `TypeError` at runtime). -/
def search_products (env : Qdrant.SearchEnv) (query : String)
    (collection_name : String := "amazon_products")
    (limit : Nat := 10) (offset : Nat := 0)
    (main_category : Option String := none)
    (sub_category : Option String := none) : Except String (List Product) :=
  Qdrant.search_similar_products env query collection_name main_category
    sub_category limit offset

end Services

/-! ## Concrete instances used by witnesses and counterexamples -/

/-- Concrete environment whose questions provider requests a restart. -/
def chatEnvRestart : Graph.ChatEnv :=
  { collectResp := fun _ => none
    presentResp := fun _ => none
    questionsResp := fun _ => some { message := "Restarting!", restart := true } }

/-- Concrete mid-conversation state with presented products. -/
def stateWithProducts : Graph.GraphState :=
  { history := [⟨"user", "a bed for my dog"⟩, ⟨"assistant", "Here are some beds"⟩,
      ⟨"user", "actually, start over"⟩]
    preferences :=
      { query := some "dog bed"
        main_category := some "Pets"
        price_max := some 20 }
    products := [Graph.mockProduct]
    restart_requested := false }

/-- Retrieval environment over an empty collection: the fused query
returns no points. -/
def searchEnvEmptyStore : Qdrant.SearchEnv :=
  { dense_model_field_name := "bge-small-en-v1.5"
    sparse_model_field_name := "bm25"
    queryEmbedDense := fun _ => [[1]]
    queryEmbedSparse := fun _ => [⟨[0], [1]⟩]
    queryPoints := fun _ => some [] }

/-- Concrete state whose merged preferences satisfy the sufficiency
rule. -/
def sufficientState : Graph.GraphState :=
  { history := [⟨"user", "a dog bed around 20 dollars, pet category"⟩]
    preferences :=
      { query := some "dog bed"
        main_category := some "Pets"
        price_max := some 20 }
    products := []
    restart_requested := false }

/-- Concrete environment whose collection provider fills sufficient
preferences at once. -/
def chatEnvSufficient : Graph.ChatEnv :=
  { collectResp := fun _ => some
      { message := "Searching"
        preferences :=
          { query := some "dog bed"
            main_category := some "Pets"
            price_max := some 20 } }
    presentResp := fun _ => some { message := "Here are products", products := [] }
    questionsResp := fun _ => none }

/-- Fresh conversation state holding only the user's first message. -/
def freshState : Graph.GraphState :=
  { history := [⟨"user", "a dog bed around 20 dollars, pet category"⟩]
    preferences := {}
    products := []
    restart_requested := false }

/-- A stored product priced at 100 USD (discounted), far above a 20 USD
bound. -/
def expensiveProduct : Product :=
  { id := 9
    name := "Gaming Laptop"
    main_category := some "Electronics"
    sub_category := some "Laptops"
    image := "https://example.com/laptop.jpg"
    link := some "https://example.com/laptop"
    ratings := some 4
    no_of_ratings := some 10
    discount_price := some 100
    actual_price := some 150 }

/-- Retrieval environment whose store holds (and returns) only the
100-USD product. -/
def searchEnvExpensive : Qdrant.SearchEnv :=
  { dense_model_field_name := "bge-small-en-v1.5"
    sparse_model_field_name := "bm25"
    queryEmbedDense := fun _ => [[1]]
    queryEmbedSparse := fun _ => [⟨[0], [1]⟩]
    queryPoints := fun _ => some [⟨9, some expensiveProduct⟩] }

/-- Retrieval environment whose dense query embedder yields nothing. -/
def searchEnvNoDense : Qdrant.SearchEnv :=
  { dense_model_field_name := "bge-small-en-v1.5"
    sparse_model_field_name := "bm25"
    queryEmbedDense := fun _ => []
    queryEmbedSparse := fun _ => [⟨[0], [1]⟩]
    queryPoints := fun _ => some [] }

/-- Cart product with id 7 — also the store's top-ranked candidate in the
witness environment. -/
def cartProduct7 : Product :=
  { id := 7
    name := "Dog Bed"
    main_category := some "Pets"
    sub_category := none
    image := "https://example.com/bed.jpg"
    link := none
    ratings := none
    no_of_ratings := none
    discount_price := some 15
    actual_price := some 20 }

/-- Recommendation environment whose every retrieval returns the cart's
own product as the top-ranked (only) candidate. -/
def recEnvTop7 : Rec.RecEnv :=
  { chat := fun _ => .ok ["dog toys"]
    search := fun _ _ => .ok [cartProduct7] }

/-- Recommendation environment whose OpenAI call raises `OpenAIError`. -/
def recEnvProviderRaise : Rec.RecEnv :=
  { chat := fun _ => .error ()
    search := fun _ _ => .ok [] }

/-- Recommendation environment whose provider succeeds but whose every
retrieval call raises. -/
def recEnvRetrievalRaise : Rec.RecEnv :=
  { chat := fun _ => .ok ["complementary idea"]
    search := fun _ _ => .error () }

/-- A stored product with id 5, for the duplicate-prevention witness. -/
def productId5 : Product :=
  { id := 5
    name := "Desk Lamp"
    main_category := some "Home"
    sub_category := none
    image := "https://example.com/lamp.jpg"
    link := none
    ratings := none
    no_of_ratings := none
    discount_price := some 10
    actual_price := some 12 }

/-- A store already holding the id-5 product. -/
def storeWith5 : Qdrant.Store :=
  [{ id := 5, dense := [1], sparse := ⟨[0], [1]⟩, payload := productId5 }]

/-- Ingestion environment whose embedders and upserts always succeed. -/
def addEnvOk : Qdrant.AddEnv :=
  { embedDense := fun names => .ok (names.map fun _ => [1])
    embedSparse := fun names => .ok (names.map fun _ => ⟨[0], [1]⟩)
    upsertErr := fun _ => none }

/-- Three one-product batches (ids 1, 2, 3) for the batch-isolation
witness. -/
def productA : Product :=
  { id := 1, name := "A", main_category := none, sub_category := none
    image := "https://example.com/a.jpg", link := none, ratings := none
    no_of_ratings := none, discount_price := none, actual_price := none }

/-- Second batch product (its embedding call fails in the witness). -/
def productB : Product :=
  { id := 2, name := "B", main_category := none, sub_category := none
    image := "https://example.com/b.jpg", link := none, ratings := none
    no_of_ratings := none, discount_price := none, actual_price := none }

/-- Third batch product. -/
def productC : Product :=
  { id := 3, name := "C", main_category := none, sub_category := none
    image := "https://example.com/c.jpg", link := none, ratings := none
    no_of_ratings := none, discount_price := none, actual_price := none }

/-- Ingestion environment for which exactly the batch containing only
`productB` fails embedding generation. -/
def addEnvBatch2Fails : Qdrant.AddEnv :=
  { embedDense := fun names =>
      if names = ["B"] then .error "boom" else .ok (names.map fun _ => [1])
    embedSparse := fun names => .ok (names.map fun _ => ⟨[0], [1]⟩)
    upsertErr := fun _ => none }

/-! ## Supporting lemmas on dictionaries, batches and the ingestion loop -/

namespace Qdrant

theorem dictLookup_insert_self (d : FailedMap) (k : Int) (v : String) :
    dictLookup (dictInsert d k v) k = some v := by
  induction d with
  | nil => simp [dictInsert, dictLookup]
  | cons kv rest ih =>
      rcases kv with ⟨a, b⟩
      by_cases ha : a = k
      · simp [dictInsert, ha, dictLookup]
      · simp [dictInsert, ha, dictLookup, ih]

theorem dictLookup_insert_ne (d : FailedMap) (k k' : Int) (v : String)
    (hne : k' ≠ k) :
    dictLookup (dictInsert d k v) k' = dictLookup d k' := by
  induction d with
  | nil => simp [dictInsert, dictLookup, Ne.symm hne]
  | cons kv rest ih =>
      rcases kv with ⟨a, b⟩
      by_cases ha : a = k
      · subst ha
        simp [dictInsert, dictLookup, Ne.symm hne]
      · simp [dictInsert, ha, dictLookup, ih]

theorem markBatchFailed_lookup_of_some (batch : List Product) (k : Int)
    (msg : String) :
    ∀ d : FailedMap, dictLookup d k = some msg →
      dictLookup (markBatchFailed d batch msg) k = some msg := by
  induction batch with
  | nil => intro d h; exact h
  | cons p rest ih =>
      intro d h
      simp only [markBatchFailed, List.foldl_cons]
      apply ih
      by_cases hp : k = p.id
      · rw [hp]
        exact dictLookup_insert_self d p.id msg
      · rw [dictLookup_insert_ne d p.id k msg hp]
        exact h

theorem markBatchFailed_lookup_mem (batch : List Product) (k : Int)
    (msg : String) :
    ∀ d : FailedMap, k ∈ batch.map (fun p => p.id) →
      dictLookup (markBatchFailed d batch msg) k = some msg := by
  induction batch with
  | nil => intro d h; simp at h
  | cons p rest ih =>
      intro d hk
      simp only [List.map_cons, List.mem_cons] at hk
      simp only [markBatchFailed, List.foldl_cons]
      rcases hk with hk | hk
      · apply markBatchFailed_lookup_of_some
        rw [hk]
        exact dictLookup_insert_self d p.id msg
      · exact ih _ hk

theorem markBatchFailed_lookup_not_mem (batch : List Product) (k : Int)
    (msg : String) :
    ∀ d : FailedMap, k ∉ batch.map (fun p => p.id) →
      dictLookup (markBatchFailed d batch msg) k = dictLookup d k := by
  induction batch with
  | nil => intro d _; rfl
  | cons p rest ih =>
      intro d hk
      simp only [List.map_cons, List.mem_cons, not_or] at hk
      simp only [markBatchFailed, List.foldl_cons]
      exact (ih _ hk.2).trans (dictLookup_insert_ne d p.id k msg hk.1)

theorem lookupPoint_cons (q : Point) (rest : Store) (k : Int) :
    Store.lookupPoint (q :: rest) k =
      if q.id = k then some q else Store.lookupPoint rest k := by
  unfold Store.lookupPoint
  by_cases h : q.id = k
  · rw [List.find?_cons_of_pos _ (by simp [h]), if_pos h]
  · rw [List.find?_cons_of_neg _ (by simp [h]), if_neg h]

theorem lookupPoint_upsertPoint_ne (store : Store) (pt : Point) (k : Int)
    (hne : pt.id ≠ k) :
    (upsertPoint store pt).lookupPoint k = store.lookupPoint k := by
  induction store with
  | nil =>
      simp only [upsertPoint, lookupPoint_cons, if_neg hne]
  | cons q rest ih =>
      by_cases hq : q.id = pt.id
      · have hqk : ¬ q.id = k := fun hh => hne (hq ▸ hh)
        simp only [upsertPoint, if_pos hq, lookupPoint_cons, if_neg hne, if_neg hqk]
      · simp only [upsertPoint, if_neg hq, lookupPoint_cons, ih]

theorem lookupPoint_foldl_upsert_ne (pts : List Point) (k : Int) :
    ∀ store : Store, (∀ pt ∈ pts, pt.id ≠ k) →
      (pts.foldl upsertPoint store).lookupPoint k = store.lookupPoint k := by
  induction pts with
  | nil => intro store _; rfl
  | cons pt rest ih =>
      intro store h
      simp only [List.foldl_cons]
      refine (ih _ fun q hq => h q (List.mem_cons_of_mem _ hq)).trans ?_
      exact lookupPoint_upsertPoint_ne store pt k (h pt (List.mem_cons_self _ _))

theorem mkPoints_id_mem (batch : List Product) (dv : List DenseVec)
    (sv : List SparseVec) (pt : Point) (h : pt ∈ mkPoints batch dv sv) :
    pt.id ∈ batch.map (fun p => p.id) := by
  unfold mkPoints at h
  obtain ⟨x, hx, rfl⟩ := List.mem_map.mp h
  exact List.mem_map.mpr ⟨x.1, (List.of_mem_zip hx).1, rfl⟩

theorem processBatch_spec (env : AddEnv) (st : AddState)
    (batch : List Product) :
    (∀ m, batchOutcome env batch = some m →
      processBatch env st batch =
        { st with failed := markBatchFailed st.failed batch m }) ∧
    (batchOutcome env batch = none →
      (processBatch env st batch).failed = st.failed ∧
      (processBatch env st batch).successful = st.successful ++ batch ∧
      ∀ k, k ∉ batch.map (fun p => p.id) →
        (processBatch env st batch).store.lookupPoint k =
          st.store.lookupPoint k) := by
  unfold processBatch batchOutcome
  cases hd : env.embedDense (batch.map fun p => p.name) with
  | error e =>
      refine ⟨fun m hm => ?_, fun hm => ?_⟩
      · injection hm with hm
        rw [← hm]
      · exact Option.noConfusion hm
  | ok dv =>
      cases hs : env.embedSparse (batch.map fun p => p.name) with
      | error e =>
          refine ⟨fun m hm => ?_, fun hm => ?_⟩
          · injection hm with hm
            rw [← hm]
          · exact Option.noConfusion hm
      | ok sv =>
          dsimp only
          by_cases hlen : dv.length = batch.length ∧ sv.length = batch.length
          · rw [if_pos hlen, if_pos hlen]
            cases hu : env.upsertErr (mkPoints batch dv sv) with
            | some e =>
                refine ⟨fun m hm => ?_, fun hm => ?_⟩
                · injection hm with hm
                  rw [← hm]
                · exact Option.noConfusion hm
            | none =>
                refine ⟨fun m hm => ?_, fun hm => ?_⟩
                · exact Option.noConfusion hm
                · refine ⟨rfl, rfl, fun k hk => ?_⟩
                  refine lookupPoint_foldl_upsert_ne _ _ _ fun pt hpt => ?_
                  intro hid
                  exact hk (hid ▸ mkPoints_id_mem batch dv sv pt hpt)
          · rw [if_neg hlen, if_neg hlen]
            refine ⟨fun m hm => ?_, fun hm => ?_⟩
            · injection hm with hm
              rw [← hm]
            · exact Option.noConfusion hm

theorem foldl_processBatch_successful (env : AddEnv)
    (bs : List (List Product)) :
    ∀ st : AddState,
      (bs.foldl (processBatch env) st).successful =
        st.successful ++
          (bs.map fun b =>
            if (batchOutcome env b).isSome then [] else b).flatten := by
  induction bs with
  | nil => intro st; simp
  | cons b rest ih =>
      intro st
      rw [List.foldl_cons, ih]
      cases ho : batchOutcome env b with
      | some m =>
          rw [(processBatch_spec env st b).1 m ho]
          simp [ho]
      | none =>
          have h2 := (processBatch_spec env st b).2 ho
          rw [h2.2.1]
          simp [ho]

theorem foldl_processBatch_preserved (env : AddEnv)
    (bs : List (List Product)) (k : Int) :
    ∀ st : AddState, (∀ b ∈ bs, k ∉ b.map (fun p => p.id)) →
      dictLookup (bs.foldl (processBatch env) st).failed k =
          dictLookup st.failed k ∧
        (bs.foldl (processBatch env) st).store.lookupPoint k =
          st.store.lookupPoint k := by
  induction bs with
  | nil => intro st _; exact ⟨rfl, rfl⟩
  | cons b rest ih =>
      intro st h
      have hb := h b (List.mem_cons_self _ _)
      have hrest := fun b' hb' => h b' (List.mem_cons_of_mem _ hb')
      rw [List.foldl_cons]
      obtain ⟨f1, s1⟩ := ih (processBatch env st b) hrest
      refine ⟨f1.trans ?_, s1.trans ?_⟩
      · cases ho : batchOutcome env b with
        | some m =>
            rw [(processBatch_spec env st b).1 m ho]
            exact markBatchFailed_lookup_not_mem b k m st.failed hb
        | none =>
            rw [((processBatch_spec env st b).2 ho).1]
      · cases ho : batchOutcome env b with
        | some m =>
            rw [(processBatch_spec env st b).1 m ho]
        | none =>
            exact ((processBatch_spec env st b).2 ho).2.2 k hb

theorem foldl_processBatch_failed_split (env : AddEnv)
    (l1 l2 : List (List Product)) (b : List Product) (st : AddState)
    (k : Int)
    (h1 : ∀ b' ∈ l1, k ∉ b'.map (fun p => p.id))
    (hb : k ∈ b.map (fun p => p.id))
    (h2 : ∀ b' ∈ l2, k ∉ b'.map (fun p => p.id))
    (h0 : dictLookup st.failed k = none) :
    dictLookup (((l1 ++ b :: l2).foldl (processBatch env) st)).failed k =
      batchOutcome env b := by
  rw [List.foldl_append, List.foldl_cons]
  have e1 : dictLookup (l1.foldl (processBatch env) st).failed k = none :=
    ((foldl_processBatch_preserved env l1 k st h1).1).trans h0
  have e2 : dictLookup
      (processBatch env (l1.foldl (processBatch env) st) b).failed k =
      batchOutcome env b := by
    cases ho : batchOutcome env b with
    | some m =>
        rw [(processBatch_spec env _ b).1 m ho]
        exact markBatchFailed_lookup_mem b k m _ hb
    | none =>
        rw [((processBatch_spec env _ b).2 ho).1]
        exact e1
  exact ((foldl_processBatch_preserved env l2 k _ h2).1).trans e2

theorem chunksFuel_flatten {α : Type} (batch_size : Nat)
    (hb : batch_size ≠ 0) :
    ∀ (fuel : Nat) (xs : List α), xs.length ≤ fuel →
      (chunksFuel batch_size fuel xs).flatten = xs := by
  intro fuel
  induction fuel with
  | zero =>
      intro xs hx
      have hxs : xs = [] := List.eq_nil_of_length_eq_zero (Nat.le_zero.mp hx)
      subst hxs
      rfl
  | succ f ih =>
      intro xs hx
      cases xs with
      | nil => rfl
      | cons x l =>
          simp only [chunksFuel, List.flatten_cons]
          rw [ih ((x :: l).drop batch_size) ?hlen]
          · exact List.take_append_drop _ _
          case hlen =>
            simp only [List.length_drop, List.length_cons] at *
            omega

theorem chunks_flatten {α : Type} (batch_size : Nat) (hb : batch_size ≠ 0)
    (xs : List α) : (chunks batch_size xs).flatten = xs := by
  unfold chunks
  rw [if_neg hb]
  exact chunksFuel_flatten batch_size hb xs.length xs le_rfl

theorem chunks_sub {α : Type} (batch_size : Nat) (xs : List α)
    (b : List α) (hbmem : b ∈ chunks batch_size xs) :
    ∀ x ∈ b, x ∈ xs := by
  intro x hx
  by_cases hb : batch_size = 0
  · rw [chunks, if_pos hb] at hbmem
    exact absurd hbmem (List.not_mem_nil b)
  · have hj := chunks_flatten batch_size hb xs
    exact hj ▸ List.mem_flatten.mpr ⟨b, hbmem, hx⟩

theorem nodup_split_not_mem (l1 l2 : List (List Product))
    (b : List Product) (k : Int)
    (hnd : (((l1 ++ b :: l2).flatten).map (fun p => p.id)).Nodup)
    (hk : k ∈ b.map (fun p => p.id)) :
    (∀ b' ∈ l1, k ∉ b'.map (fun p => p.id)) ∧
      (∀ b' ∈ l2, k ∉ b'.map (fun p => p.id)) := by
  rw [List.flatten_append, List.flatten_cons, List.map_append,
    List.map_append] at hnd
  obtain ⟨hA, hBC, hdisj⟩ := List.nodup_append.mp hnd
  obtain ⟨hB, hC, hdisjBC⟩ := List.nodup_append.mp hBC
  refine ⟨fun b' hb' hkb' => ?_, fun b' hb' hkb' => ?_⟩
  · obtain ⟨p, hp, hpk⟩ := List.mem_map.mp hkb'
    have hmem : k ∈ (l1.flatten).map (fun p => p.id) :=
      List.mem_map.mpr ⟨p, List.mem_flatten.mpr ⟨b', hb', hp⟩, hpk⟩
    exact hdisj hmem (List.mem_append_left _ hk)
  · obtain ⟨p, hp, hpk⟩ := List.mem_map.mp hkb'
    have hmem : k ∈ (l2.flatten).map (fun p => p.id) :=
      List.mem_map.mpr ⟨p, List.mem_flatten.mpr ⟨b', hb', hp⟩, hpk⟩
    exact hdisjBC hk hmem

theorem duplicateCheck_lookup_stable (store : Store) (l : List Product)
    (k : Int) :
    ∀ d : FailedMap, dictLookup d k = some (duplicateMsg k) →
      dictLookup (l.foldl (duplicateStep store) d) k =
        some (duplicateMsg k) := by
  induction l with
  | nil => intro d h; exact h
  | cons p rest ih =>
      intro d h
      rw [List.foldl_cons]
      apply ih
      unfold duplicateStep
      by_cases hex : (Store.lookupPoint store p.id).isSome
      · rw [if_pos hex]
        by_cases hp : p.id = k
        · rw [hp]
          exact dictLookup_insert_self d k (duplicateMsg k)
        · rw [dictLookup_insert_ne d p.id k (duplicateMsg p.id) (Ne.symm hp)]
          exact h
      · rw [if_neg hex]
        exact h

theorem duplicateCheck_lookup_mem (store : Store) (l : List Product)
    (p : Product) (hex : (Store.lookupPoint store p.id).isSome) :
    ∀ d : FailedMap, p ∈ l →
      dictLookup (l.foldl (duplicateStep store) d) p.id =
        some (duplicateMsg p.id) := by
  induction l with
  | nil => intro d h; simp at h
  | cons q rest ih =>
      intro d hp
      rw [List.foldl_cons]
      rcases List.mem_cons.mp hp with rfl | hp
      · apply duplicateCheck_lookup_stable
        unfold duplicateStep
        rw [if_pos hex]
        exact dictLookup_insert_self d p.id (duplicateMsg p.id)
      · exact ih _ hp

theorem add_products_prevent_eq (env : AddEnv) (store : Store)
    (products : List Product) (batch_size : Nat) :
    add_products env store products batch_size true =
      (chunks batch_size (products.filter fun p =>
        (dictLookup (duplicateCheck store products) p.id).isNone)).foldl
        (processBatch env)
        { successful := [], failed := duplicateCheck store products
          store := store } := by
  simp [add_products]

theorem add_products_no_prevent_eq (env : AddEnv) (store : Store)
    (products : List Product) (batch_size : Nat) :
    add_products env store products batch_size false =
      (chunks batch_size products).foldl (processBatch env)
        { successful := [], failed := [], store := store } := by
  simp [add_products]

end Qdrant

/-! ## Claim C1: sufficiency rule -/

/-- C1: for every preference object `p`, `has_sufficient_preferences p`
holds iff at least `MIN_FIELDS_FOR_SEARCH` (3) of the four core fields
(`query`, `main_category`, `price_min`, `price_max`) are non-null and
`query` itself is non-null; in particular, only `query` and `price_max`
set is insufficient, and setting `main_category` as well is sufficient. -/
theorem C1_sufficiency_rule :
    (∀ p : ProductQuery,
      Graph.has_sufficient_preferences p = true ↔
        (MIN_FIELDS_FOR_SEARCH ≤
            ([p.query.isSome, p.main_category.isSome, p.price_min.isSome,
              p.price_max.isSome].count true)
          ∧ p.query ≠ none)) ∧
    Graph.has_sufficient_preferences
      { query := some "dog bed", main_category := none, price_min := none,
        price_max := some 20 } = false ∧
    Graph.has_sufficient_preferences
      { query := some "dog bed", main_category := some "Pets",
        price_min := none, price_max := some 20 } = true := by
  refine ⟨?_, rfl, rfl⟩
  rintro ⟨q, mc, pmin, pmax⟩
  cases q <;> cases mc <;> cases pmin <;> cases pmax <;>
    simp [Graph.has_sufficient_preferences, Graph.getattrIsSome,
      MIN_FIELDS_FOR_SEARCH, REQUIRED_FIELD_FOR_SEARCH, List.count_cons]

/-! ## Claim C2: preference merge -/

/-- C2: the merge performed by the collection step overwrites each field
of the old preferences with the corresponding non-null field of the new
ones, leaves fields untouched where the new value is null (so merging
never clears a previously set field: a null merged field means both sides
were null), and `collect_preferences_node` indeed stores exactly this
merge whenever the provider returned a parsed response. -/
theorem C2_merge_rule (old new : ProductQuery) :
    ((∀ v, new.query = some v →
        (Graph.mergePreferences old new).query = some v) ∧
      (new.query = none →
        (Graph.mergePreferences old new).query = old.query) ∧
      ((Graph.mergePreferences old new).query = none →
        old.query = none ∧ new.query = none)) ∧
    ((∀ v, new.main_category = some v →
        (Graph.mergePreferences old new).main_category = some v) ∧
      (new.main_category = none →
        (Graph.mergePreferences old new).main_category = old.main_category) ∧
      ((Graph.mergePreferences old new).main_category = none →
        old.main_category = none ∧ new.main_category = none)) ∧
    ((∀ v, new.price_min = some v →
        (Graph.mergePreferences old new).price_min = some v) ∧
      (new.price_min = none →
        (Graph.mergePreferences old new).price_min = old.price_min) ∧
      ((Graph.mergePreferences old new).price_min = none →
        old.price_min = none ∧ new.price_min = none)) ∧
    ((∀ v, new.price_max = some v →
        (Graph.mergePreferences old new).price_max = some v) ∧
      (new.price_max = none →
        (Graph.mergePreferences old new).price_max = old.price_max) ∧
      ((Graph.mergePreferences old new).price_max = none →
        old.price_max = none ∧ new.price_max = none)) ∧
    (∀ (env : Graph.ChatEnv) (s : Graph.GraphState) (ar : AgentResponse),
      env.collectResp s = some ar →
        (Graph.collect_preferences_node env s).preferences =
          Graph.mergePreferences s.preferences ar.preferences) := by
  refine ⟨⟨?_, ?_, ?_⟩, ⟨?_, ?_, ?_⟩, ⟨?_, ?_, ?_⟩, ⟨?_, ?_, ?_⟩, ?_⟩
  case _ => intro v hv; simp [Graph.mergePreferences, hv]
  case _ => intro hv; simp [Graph.mergePreferences, hv]
  case _ =>
    intro h
    cases hq : new.query with
    | some v => simp [Graph.mergePreferences, hq] at h
    | none =>
        refine ⟨?_, rfl⟩
        simpa [Graph.mergePreferences, hq] using h
  case _ => intro v hv; simp [Graph.mergePreferences, hv]
  case _ => intro hv; simp [Graph.mergePreferences, hv]
  case _ =>
    intro h
    cases hq : new.main_category with
    | some v => simp [Graph.mergePreferences, hq] at h
    | none =>
        refine ⟨?_, rfl⟩
        simpa [Graph.mergePreferences, hq] using h
  case _ => intro v hv; simp [Graph.mergePreferences, hv]
  case _ => intro hv; simp [Graph.mergePreferences, hv]
  case _ =>
    intro h
    cases hq : new.price_min with
    | some v => simp [Graph.mergePreferences, hq] at h
    | none =>
        refine ⟨?_, rfl⟩
        simpa [Graph.mergePreferences, hq] using h
  case _ => intro v hv; simp [Graph.mergePreferences, hv]
  case _ => intro hv; simp [Graph.mergePreferences, hv]
  case _ =>
    intro h
    cases hq : new.price_max with
    | some v => simp [Graph.mergePreferences, hq] at h
    | none =>
        refine ⟨?_, rfl⟩
        simpa [Graph.mergePreferences, hq] using h
  case _ =>
    intro env s ar h
    simp only [Graph.collect_preferences_node, h]
    split <;> rfl

/-- Witness for C2 at the spec's own example: merging
`(query=None, price_min=10)` onto `(query="dog", price_min=5)` keeps
`query="dog"` and overwrites `price_min=10`. -/
theorem C2_merge_rule_witness :
    (Graph.mergePreferences { query := some "dog", price_min := some 5 }
      { query := none, price_min := some 10 }).query = some "dog" ∧
    (Graph.mergePreferences { query := some "dog", price_min := some 5 }
      { query := none, price_min := some 10 }).price_min = some 10 := by
  have h := C2_merge_rule { query := some "dog", price_min := some 5 }
    { query := none, price_min := some 10 }
  exact ⟨h.1.2.1 rfl, h.2.2.1.1 10 rfl⟩

/-! ## Claim C3: restart frame effect -/

/-- C3: when the questions provider signals `restart = true`, the
answer-questions step empties `products`, resets `preferences` to the
empty preference object, leaves `history` exactly unchanged (zero
assistant messages appended at that step), sets the restart flag, and the
graph routes the same turn on to the collect-preferences step. -/
theorem C3_restart_frame (env : Graph.ChatEnv) (s : Graph.GraphState)
    (r : QuestionsResponse) (hq : env.questionsResp s = some r)
    (hr : r.restart = true) :
    (Graph.answer_questions_node env s).products = [] ∧
    (Graph.answer_questions_node env s).preferences = {} ∧
    (Graph.answer_questions_node env s).history = s.history ∧
    (Graph.answer_questions_node env s).restart_requested = true ∧
    Graph.route_after_questions (Graph.answer_questions_node env s) =
      .collect_preferences ∧
    Graph.runQuestionsFlow env s =
      Graph.runCollectionFlow env (Graph.answer_questions_node env s) := by
  simp [Graph.answer_questions_node, hq, hr, Graph.route_after_questions,
    Graph.runQuestionsFlow]

/-- Witness for C3 at a concrete restart turn. -/
theorem C3_restart_frame_witness :
    (Graph.answer_questions_node chatEnvRestart stateWithProducts).products = [] ∧
    (Graph.answer_questions_node chatEnvRestart stateWithProducts).preferences = {} ∧
    (Graph.answer_questions_node chatEnvRestart stateWithProducts).history =
      stateWithProducts.history ∧
    Graph.route_after_questions
      (Graph.answer_questions_node chatEnvRestart stateWithProducts) =
      .collect_preferences := by
  have h := C3_restart_frame chatEnvRestart stateWithProducts
    { message := "Restarting!", restart := true } rfl rfl
  exact ⟨h.1, h.2.1, h.2.2.1, h.2.2.2.2.1⟩

/-! ## Claim C4: the search step (corrected: mock search, no retrieval) -/

/-- Counterexample to C4 as stated: on a sufficient state the search step
sets `products` to the hardcoded mock list `[mockProduct]`, while
executing the Retrieval Engine's search with the same merged preferences
(query "dog bed", category "Pets"; the engine accepts no price fields) on
a concrete store returns `[]` — the two differ, so the step does not set
`products` to the Retrieval Engine's result. -/
theorem C4_counterexample :
    Graph.has_sufficient_preferences sufficientState.preferences = true ∧
    (Graph.search_products_node sufficientState).products = [Graph.mockProduct] ∧
    Qdrant.search_similar_products searchEnvEmptyStore "dog bed" "amazon_products"
      (some "Pets") none 5 0 20 = .ok [] ∧
    ([Graph.mockProduct] : List Product) ≠ ([] : List Product) := by
  refine ⟨by decide, rfl, rfl, by simp⟩

/-- C4 as amended: whenever the route after collection is
`search_products`, the turn runs the search step and unconditionally
continues to the presentation step; the search step sets `products` to
the hardcoded mock single-product list, independent of the preferences
(no Retrieval Engine call, no presentation-count cap). -/
theorem C4_mock_search (env : Graph.ChatEnv) (state : Graph.GraphState)
    (h : Graph.route_after_collection (Graph.collect_preferences_node env state) =
      .search_products) :
    (∀ s : Graph.GraphState,
        Graph.search_products_node s = { s with products := [Graph.mockProduct] }) ∧
    Graph.runCollectionFlow env state =
      Graph.present_products_node env
        (Graph.search_products_node (Graph.collect_preferences_node env state)) := by
  refine ⟨fun s => rfl, ?_⟩
  simp [Graph.runCollectionFlow, h]

/-! ## Claim C5: price-range filtering (code bug: the engine has none) -/

/-- C5 evaluated on the code: every filter condition the engine ever
builds is a category text-match (there is no price condition of any
kind — `search_similar_products` and the `services` wrapper accept no
price arguments), and a concrete search returns a product priced at 100
even though the caller's intended bound was `price_max = 20`. -/
theorem C5_no_price_filter :
    (∀ (mc sc : Option String) (cond : Qdrant.Condition),
        cond ∈ Qdrant.categoryConditions mc sc →
          ∃ t, cond = .matchText "main_category" t ∨
            cond = .matchText "sub_category" t) ∧
    Services.search_products searchEnvExpensive "laptop" "amazon_products" 10 0
      (some "Electronics") none = .ok [expensiveProduct] ∧
    expensiveProduct.discount_price = some 100 ∧ ¬ ((100 : ℚ) ≤ 20) := by
  refine ⟨?_, rfl, rfl, by norm_num⟩
  intro mc sc cond h
  simp only [Qdrant.categoryConditions, List.mem_append] at h
  rcases h with h | h
  · rcases mc with _ | mc
    · simp at h
    · by_cases hmc : mc = ""
      · simp [hmc] at h
      · simp [hmc] at h
        exact ⟨mc, Or.inl h⟩
  · rcases sc with _ | sc
    · simp at h
    · by_cases hsc : sc = ""
      · simp [hsc] at h
      · simp [hsc] at h
        exact ⟨sc, Or.inr h⟩

/-! ## Claim C6: behaviour on embedding failure (corrected: it raises) -/

/-- Counterexample to C6 as stated: on a concrete search call whose dense
embedding yields no candidate vector, `search_similar_products` raises a
`ValueError` — it does not return an empty list. -/
theorem C6_counterexample :
    searchEnvNoDense.queryEmbedDense "dog bed" = [] ∧
    Qdrant.search_similar_products searchEnvNoDense "dog bed" "amazon_products"
      none none 10 0 20 = .error Qdrant.denseEmbeddingErrMsg ∧
    Qdrant.search_similar_products searchEnvNoDense "dog bed" "amazon_products"
      none none 10 0 20 ≠ .ok [] := by
  have h2 : Qdrant.search_similar_products searchEnvNoDense "dog bed"
      "amazon_products" none none 10 0 20 = .error Qdrant.denseEmbeddingErrMsg := rfl
  refine ⟨rfl, h2, ?_⟩
  rw [h2]
  simp

/-- C6 as amended: on every search call in which embedding generation
yields no vector for the dense (resp. sparse) branch,
`search_similar_products` raises an explicit `ValueError`; it never
returns an empty list on embedding failure — there is no graceful
empty-list read path for that condition, whoever the caller is. -/
theorem C6_embedding_failure_raises (env : Qdrant.SearchEnv)
    (query collection_name : String) (mc sc : Option String)
    (limit offset prefetch_limit : Nat) :
    (env.queryEmbedDense query = [] →
      Qdrant.search_similar_products env query collection_name mc sc limit
        offset prefetch_limit = .error Qdrant.denseEmbeddingErrMsg) ∧
    (∀ dv dr, env.queryEmbedDense query = dv :: dr →
      env.queryEmbedSparse query = [] →
      Qdrant.search_similar_products env query collection_name mc sc limit
        offset prefetch_limit = .error Qdrant.sparseEmbeddingErrMsg) := by
  refine ⟨?_, ?_⟩
  · intro hd
    simp [Qdrant.search_similar_products, hd]
  · intro dv dr hd hs
    simp [Qdrant.search_similar_products, hd, hs]

/-- Witness for the amended C6: the dense-failure branch raises on a
concrete environment. -/
theorem C6_embedding_failure_raises_witness :
    Qdrant.search_similar_products searchEnvNoDense "sofa" "amazon_products"
      none none 10 0 20 = .error Qdrant.denseEmbeddingErrMsg :=
  (C6_embedding_failure_raises searchEnvNoDense "sofa" "amazon_products"
    none none 10 0 20).1 rfl

/-! ## Claim C9: recommendation cart-exclusion and truncation -/

/-- C9: whenever `recommend_products` returns a list, none of its
elements carries the id of any cart product, and its length is at most
the requested limit. -/
theorem C9_recommendation_exclusion (env : Rec.RecEnv) (cart : List Product)
    (limit : Int) (l : List Product)
    (h : Rec.recommend_products env (some cart) limit = .ok l) :
    (∀ p ∈ l, ∀ c ∈ cart, p.id ≠ c.id) ∧ l.length ≤ limit.toNat := by
  simp only [Rec.recommend_products] at h
  split at h
  · cases h
    simp
  · split at h
    · cases h
    · split at h
      · cases h
        simp
      · split at h
        · cases h
          simp
        · cases h
          constructor
          · intro p hp c hc he
            have hp' := List.mem_of_mem_take hp
            have hmem := (List.mem_filter.mp hp').2
            have : p.id ∉ cart.map (·.id) := of_decide_eq_true hmem
            exact this (he ▸ List.mem_map_of_mem (·.id) hc)
          · calc _ ≤ limit.toNat := List.length_take_le _ _

/-- Witness for C9: even when every candidate search returns the cart's
id-7 product top-ranked, the final recommendation list excludes it. -/
theorem C9_recommendation_exclusion_witness :
    Rec.recommend_products recEnvTop7 (some [cartProduct7]) 10 = .ok [] ∧
    (∀ p ∈ ([] : List Product), ∀ c ∈ [cartProduct7], p.id ≠ c.id) ∧
    ([] : List Product).length ≤ (10 : Int).toNat := by
  have h : Rec.recommend_products recEnvTop7 (some [cartProduct7]) 10 =
      .ok [] := rfl
  exact ⟨h, C9_recommendation_exclusion recEnvTop7 [cartProduct7] 10 [] h⟩

/-! ## Claim C10: provider-failure fallback (code bug: it crashes) -/

/-- C10 evaluated on the code: when the completion provider raises, the
`except OpenAIError` branch assigns only `query` and never `ideas`, so
the call crashes with `UnboundLocalError` instead of completing the
pipeline with the cart-summary fallback query; a retrieval failure, by
contrast, does return the empty list (the claim's fail-closed half). -/
theorem C10_fallback_crash :
    Rec.recommend_products recEnvProviderRaise (some [cartProduct7]) 5 =
      .error .unboundLocalIdeas ∧
    Rec.recommend_products recEnvRetrievalRaise (some [cartProduct7]) 5 =
      .ok [] :=
  ⟨rfl, rfl⟩

/-! ## Claim C7: duplicate prevention -/

/-- C7: with duplicate prevention on, every input product whose id is
already stored is reported failed with reason exactly
`"Product with ID <id> already exists"`, no successful product carries
that id, and the stored point for that id is untouched by the call. -/
theorem C7_duplicate_prevention (env : Qdrant.AddEnv) (store : Qdrant.Store)
    (products : List Product) (batch_size : Nat) (p : Product)
    (hp : p ∈ products)
    (hex : (Qdrant.Store.lookupPoint store p.id).isSome = true) :
    Qdrant.dictLookup
        (Qdrant.add_products env store products batch_size true).failed p.id =
      some (Qdrant.duplicateMsg p.id) ∧
    (∀ q ∈ (Qdrant.add_products env store products batch_size true).successful,
      q.id ≠ p.id) ∧
    Qdrant.Store.lookupPoint
        (Qdrant.add_products env store products batch_size true).store p.id =
      Qdrant.Store.lookupPoint store p.id := by
  have hdup : Qdrant.dictLookup (Qdrant.duplicateCheck store products) p.id =
      some (Qdrant.duplicateMsg p.id) :=
    Qdrant.duplicateCheck_lookup_mem store products p hex [] hp
  have hnotin : ∀ b ∈ Qdrant.chunks batch_size
      (products.filter fun q =>
        (Qdrant.dictLookup (Qdrant.duplicateCheck store products) q.id).isNone),
      p.id ∉ b.map (fun q => q.id) := by
    intro b hb hmem
    obtain ⟨q, hq, hqid⟩ := List.mem_map.mp hmem
    have hqf := Qdrant.chunks_sub _ _ b hb q hq
    have hnone := (List.mem_filter.mp hqf).2
    rw [hqid, hdup] at hnone
    simp at hnone
  rw [Qdrant.add_products_prevent_eq]
  obtain ⟨f1, s1⟩ := Qdrant.foldl_processBatch_preserved env _ p.id
    { successful := [], failed := Qdrant.duplicateCheck store products
      store := store } hnotin
  refine ⟨f1.trans hdup, ?_, s1⟩
  intro q hq hqid
  rw [Qdrant.foldl_processBatch_successful env _ _] at hq
  simp only [List.nil_append] at hq
  obtain ⟨c, hc, hqc⟩ := List.mem_flatten.mp hq
  obtain ⟨b, hb, hbc⟩ := List.mem_map.mp hc
  by_cases ho : (Qdrant.batchOutcome env b).isSome
  · rw [← hbc] at hqc
    simp [ho] at hqc
  · rw [← hbc] at hqc
    simp [ho] at hqc
    have hqf := Qdrant.chunks_sub _ _ b hb q hqc
    have hnone := (List.mem_filter.mp hqf).2
    rw [hqid, hdup] at hnone
    simp at hnone

/-- Witness for C7 at the spec's own example: the store already holds
id 5, and `addProducts([sameId5], preventDuplicates=true)` reports it
failed with the exact message, reports nothing successful, and leaves the
stored point untouched. -/
theorem C7_duplicate_prevention_witness :
    Qdrant.dictLookup
        (Qdrant.add_products addEnvOk storeWith5 [productId5] 100 true).failed 5 =
      some (Qdrant.duplicateMsg 5) ∧
    Qdrant.duplicateMsg 5 = "Product with ID 5 already exists" ∧
    (Qdrant.add_products addEnvOk storeWith5 [productId5] 100 true).successful =
      [] ∧
    Qdrant.Store.lookupPoint
        (Qdrant.add_products addEnvOk storeWith5 [productId5] 100 true).store 5 =
      Qdrant.Store.lookupPoint storeWith5 5 := by
  have h := C7_duplicate_prevention addEnvOk storeWith5 [productId5] 100
    productId5 (List.mem_cons_self _ _) (by rfl)
  exact ⟨h.1, by rfl, by rfl, h.2.2⟩

/-! ## Claim C8: batch isolation -/

/-- C8: in an `add_products` call without duplicate prevention and with
pairwise-distinct product ids, the successful list is exactly the
concatenation of the batches whose processing succeeded (in batch order);
each product's failure entry is exactly its own batch's outcome —
`"Embedding generation failed: <cause>"` when that batch's embedding call
raised (dense or sparse), `"Upsert operation failed: <cause>"` when its
upsert raised — independent of every other batch; and every input product
ends up in exactly one of successful or failed. -/
theorem C8_batch_isolation (env : Qdrant.AddEnv) (store : Qdrant.Store)
    (products : List Product) (batch_size : Nat) (hbs : batch_size ≠ 0)
    (hnodup : (products.map (fun p => p.id)).Nodup) :
    (Qdrant.add_products env store products batch_size false).successful =
      ((Qdrant.chunks batch_size products).map
        (fun b => if (Qdrant.batchOutcome env b).isSome then [] else b)).flatten ∧
    (∀ b ∈ Qdrant.chunks batch_size products, ∀ p ∈ b,
      Qdrant.dictLookup
          (Qdrant.add_products env store products batch_size false).failed p.id =
        Qdrant.batchOutcome env b) ∧
    (∀ p ∈ products,
      p ∈ (Qdrant.add_products env store products batch_size false).successful ↔
        Qdrant.dictLookup
          (Qdrant.add_products env store products batch_size false).failed p.id =
          none) ∧
    (∀ (b : List Product) (c : String),
      env.embedDense (b.map fun q => q.name) = .error c →
        Qdrant.batchOutcome env b = some (Qdrant.embeddingFailedMsg c)) ∧
    (∀ (b : List Product) (dv : List Qdrant.DenseVec) (c : String),
      env.embedDense (b.map fun q => q.name) = .ok dv →
      env.embedSparse (b.map fun q => q.name) = .error c →
        Qdrant.batchOutcome env b = some (Qdrant.embeddingFailedMsg c)) ∧
    (∀ (b : List Product) (dv : List Qdrant.DenseVec)
        (sv : List Qdrant.SparseVec) (c : String),
      env.embedDense (b.map fun q => q.name) = .ok dv →
      env.embedSparse (b.map fun q => q.name) = .ok sv →
      dv.length = b.length → sv.length = b.length →
      env.upsertErr (Qdrant.mkPoints b dv sv) = some c →
        Qdrant.batchOutcome env b = some (Qdrant.upsertFailedMsg c)) := by
  have hA : (Qdrant.add_products env store products batch_size false).successful =
      ((Qdrant.chunks batch_size products).map
        (fun b => if (Qdrant.batchOutcome env b).isSome then [] else b)).flatten := by
    rw [Qdrant.add_products_no_prevent_eq,
      Qdrant.foldl_processBatch_successful env _ _]
    simp
  have hB : ∀ b ∈ Qdrant.chunks batch_size products, ∀ p ∈ b,
      Qdrant.dictLookup
          (Qdrant.add_products env store products batch_size false).failed p.id =
        Qdrant.batchOutcome env b := by
    intro b hb p hpb
    obtain ⟨l1, l2, hsplit⟩ := List.append_of_mem hb
    have hnd : (((l1 ++ b :: l2).flatten).map (fun q => q.id)).Nodup := by
      rw [← hsplit, Qdrant.chunks_flatten batch_size hbs products]
      exact hnodup
    have hk : p.id ∈ b.map (fun q => q.id) := List.mem_map_of_mem _ hpb
    obtain ⟨h1, h2⟩ := Qdrant.nodup_split_not_mem l1 l2 b p.id hnd hk
    rw [Qdrant.add_products_no_prevent_eq, hsplit]
    exact Qdrant.foldl_processBatch_failed_split env l1 l2 b _ p.id h1 hk h2 rfl
  refine ⟨hA, hB, ?_, ?_, ?_, ?_⟩
  · intro p hpp
    have hpj : p ∈ (Qdrant.chunks batch_size products).flatten := by
      rw [Qdrant.chunks_flatten batch_size hbs products]
      exact hpp
    obtain ⟨b, hb, hpb⟩ := List.mem_flatten.mp hpj
    have hfail := hB b hb p hpb
    cases ho : Qdrant.batchOutcome env b with
    | none =>
        refine iff_of_true ?_ (hfail.trans ho)
        rw [hA]
        refine List.mem_flatten.mpr ⟨b, ?_, hpb⟩
        have := List.mem_map_of_mem
          (fun b => if (Qdrant.batchOutcome env b).isSome then [] else b) hb
        simpa [ho] using this
    | some m =>
        refine iff_of_false ?_ (by rw [hfail, ho]; simp)
        intro hmem
        rw [hA] at hmem
        obtain ⟨c, hc, hpc⟩ := List.mem_flatten.mp hmem
        obtain ⟨b', hb', hbc⟩ := List.mem_map.mp hc
        by_cases ho' : (Qdrant.batchOutcome env b').isSome
        · rw [← hbc] at hpc
          simp [ho'] at hpc
        · rw [← hbc] at hpc
          simp [ho'] at hpc
          have hfail' := hB b' hb' p hpc
          rw [hfail, ho] at hfail'
          rw [Option.not_isSome_iff_eq_none.mp ho'] at hfail'
          exact Option.noConfusion hfail'
  · intro b c h
    simp [Qdrant.batchOutcome, h]
  · intro b dv c h1 h2
    simp [Qdrant.batchOutcome, h1, h2]
  · intro b dv sv c h1 h2 hl1 hl2 hu
    simp [Qdrant.batchOutcome, h1, h2, hl1, hl2, hu]

/-- Witness for C8 at the spec's own example: three one-product batches,
the second fails embedding generation, batches 1 and 3 still succeed and
are reported independently, and the failure reason has the documented
format. -/
theorem C8_batch_isolation_witness :
    (Qdrant.add_products addEnvBatch2Fails [] [productA, productB, productC]
      1 false).successful = [productA, productC] ∧
    Qdrant.dictLookup (Qdrant.add_products addEnvBatch2Fails []
        [productA, productB, productC] 1 false).failed 2 =
      some (Qdrant.embeddingFailedMsg "boom") ∧
    Qdrant.embeddingFailedMsg "boom" = "Embedding generation failed: boom" ∧
    Qdrant.dictLookup (Qdrant.add_products addEnvBatch2Fails []
        [productA, productB, productC] 1 false).failed 1 = none ∧
    Qdrant.dictLookup (Qdrant.add_products addEnvBatch2Fails []
        [productA, productB, productC] 1 false).failed 3 = none := by
  have h := C8_batch_isolation addEnvBatch2Fails [] [productA, productB, productC]
    1 (by decide) (by decide)
  refine ⟨h.1.trans (by rfl), ?_, by rfl, ?_, ?_⟩
  · exact (h.2.1 [productB] (by decide) productB (by decide)).trans (by rfl)
  · exact (h.2.1 [productA] (by decide) productA (by decide)).trans (by rfl)
  · exact (h.2.1 [productC] (by decide) productC (by decide)).trans (by rfl)

/-- Witness for the amended C4 at a concrete sufficient turn. -/
theorem C4_mock_search_witness :
    Graph.route_after_collection
      (Graph.collect_preferences_node chatEnvSufficient freshState) =
      .search_products ∧
    Graph.runCollectionFlow chatEnvSufficient freshState =
      Graph.present_products_node chatEnvSufficient
        (Graph.search_products_node
          (Graph.collect_preferences_node chatEnvSufficient freshState)) := by
  refine ⟨by decide, ?_⟩
  exact (C4_mock_search chatEnvSufficient freshState (by decide)).2

end AmazonCopilot
